import Mathlib

/-!
Verification development for the AIS ingestion collector
(`src/ais_collector.py`).  The definitions below are a shallow embedding
of the collector's pure data transformations and of its stateful receive
loop (the loop becomes explicit state passing over `LoopState`, the
PostgreSQL tables become lists of rows inside `Database`, and fallible
code returns `Option`).  Numeric feed values (coordinates, speeds,
draughts) are abstracted to `Int` — none of the verified properties
depends on their arithmetic beyond equality and addition.
-/

namespace AisCollector

/-! ## Timestamp normalization (`parse_timestamp`, lines 342-366)

The Python code removes every occurrence of the substring `" UTC"`
(`str.replace` replaces all occurrences), matches the result against the
regular expression
`^(\d{4}-\d{2}-\d{2} \d{2}:\d{2}:\d{2})\.(\d+)\s(\+\d{4})$`,
truncates the fractional digits to 6, and hands the rebuilt string to
`datetime.strptime` with format `%Y-%m-%d %H:%M:%S.%f%z`.  A failed
match or a failed `strptime` raises `ValueError`, which the caller
catches; we model both as `none`.  The parsed aware datetime is modelled
as the absolute instant in microseconds since the civil epoch
1970-01-01 00:00:00 UTC. -/

/-- Python's `timestamp_str.replace(" UTC", "")`: drop every
(left-to-right, non-overlapping) occurrence of `" UTC"`. -/
def stripUTC : List Char → List Char
  | [] => []
  | ' ' :: 'U' :: 'T' :: 'C' :: rest => stripUTC rest
  | c :: rest => c :: stripUTC rest

/-- Value of a decimal digit character. -/
def digitVal (c : Char) : Nat := c.toNat - 48

/-- Read exactly `k` decimal digits from the front of the list,
returning their value and the remaining characters. -/
def readDigits : Nat → Nat → List Char → Option (Nat × List Char)
  | 0, acc, cs => some (acc, cs)
  | k + 1, acc, c :: cs =>
      if c.isDigit then readDigits k (acc * 10 + digitVal c) cs else none
  | _ + 1, _, [] => none

/-- Require the next character to be `c`. -/
def expectChar (c : Char) : List Char → Option (List Char)
  | x :: cs => if x = c then some cs else none
  | [] => none

/-- The groups captured by the timestamp regular expression. -/
structure TsMatch where
  y : Nat
  mo : Nat
  d : Nat
  h : Nat
  mi : Nat
  sec : Nat
  frac : List Char
  offH : Nat
  offM : Nat
deriving DecidableEq

/-- Match
`^(\d{4}-\d{2}-\d{2} \d{2}:\d{2}:\d{2})\.(\d+)\s(\+\d{4})$`
against the whole character list.  The fractional group is the maximal
digit run after the dot (it must be followed by a whitespace character,
which is not a digit, so the greedy match is the only one). -/
def matchTsPattern (cs : List Char) : Option TsMatch := do
  let (y, cs) ← readDigits 4 0 cs
  let cs ← expectChar '-' cs
  let (mo, cs) ← readDigits 2 0 cs
  let cs ← expectChar '-' cs
  let (d, cs) ← readDigits 2 0 cs
  let cs ← expectChar ' ' cs
  let (h, cs) ← readDigits 2 0 cs
  let cs ← expectChar ':' cs
  let (mi, cs) ← readDigits 2 0 cs
  let cs ← expectChar ':' cs
  let (sec, cs) ← readDigits 2 0 cs
  let cs ← expectChar '.' cs
  let frac := cs.takeWhile Char.isDigit
  let cs := cs.dropWhile Char.isDigit
  if frac = [] then none
  else
    match cs with
    | w :: cs =>
        if w.isWhitespace then do
          let cs ← expectChar '+' cs
          let (offH, cs) ← readDigits 2 0 cs
          let (offM, cs) ← readDigits 2 0 cs
          if cs = [] then some ⟨y, mo, d, h, mi, sec, frac, offH, offM⟩ else none
        else none
    | [] => none

/-- Gregorian leap-year test, as `datetime` uses. -/
def isLeap (y : Nat) : Bool := (y % 4 == 0 && y % 100 != 0) || y % 400 == 0

/-- Days in a month of the proleptic Gregorian calendar. -/
def daysInMonth (y mo : Nat) : Nat :=
  if mo = 2 then (if isLeap y then 29 else 28)
  else if mo = 4 ∨ mo = 6 ∨ mo = 9 ∨ mo = 11 then 30
  else 31

/-- The range checks `datetime.strptime` performs on the rebuilt string:
year 1-9999, a real calendar date, time fields in range, and a UTC
offset of the shape accepted by `%z` (minutes `00`-`59`) that
`datetime.timezone` accepts (strictly less than 24 hours). -/
def validDateTime (m : TsMatch) : Bool :=
  1 ≤ m.y && 1 ≤ m.mo && m.mo ≤ 12 && 1 ≤ m.d && m.d ≤ daysInMonth m.y m.mo &&
  m.h ≤ 23 && m.mi ≤ 59 && m.sec ≤ 59 &&
  m.offM ≤ 59 && m.offH * 60 + m.offM < 1440

/-- Days from 1970-01-01 to year `y`, month `mo`, day `d` of the
proleptic Gregorian calendar (the standard civil-from-days formula). -/
def daysFromCivil (y mo d : Nat) : Int :=
  let y1 : Int := if mo ≤ 2 then (y : Int) - 1 else (y : Int)
  let era : Int := y1 / 400
  let yoe : Int := y1 - era * 400
  let mp : Int := if mo ≤ 2 then (mo : Int) + 9 else (mo : Int) - 3
  let doy : Int := (153 * mp + 2) / 5 + (d : Int) - 1
  let doe : Int := yoe * 365 + yoe / 4 - yoe / 100 + doy
  era * 146097 + doe - 719468

/-- Microseconds denoted by a (1 to 6 digit) `%f` fractional group:
the digits are right-padded with zeros to 6 places. -/
def fracMicros (frac : List Char) : Nat :=
  (frac.foldl (fun a c => a * 10 + digitVal c) 0) * 10 ^ (6 - frac.length)

/-- The absolute instant (microseconds since 1970-01-01 00:00:00 UTC)
denoted by a matched timestamp whose fraction was truncated to 6
digits. -/
def tsInstant (m : TsMatch) : Int :=
  (daysFromCivil m.y m.mo m.d * 86400 +
    (m.h : Int) * 3600 + (m.mi : Int) * 60 + (m.sec : Int)) * 1000000 +
  (fracMicros (m.frac.take 6) : Int) -
  ((m.offH : Int) * 3600 + (m.offM : Int) * 60) * 1000000

/-- `parse_timestamp` (lines 342-366): strip `" UTC"` occurrences, match
the pattern, truncate the fraction to 6 digits, and convert via
`strptime`; any failure (`ValueError` in Python) is `none`. -/
def parse_timestamp (s : String) : Option Int :=
  match matchTsPattern (stripUTC s.data) with
  | none => none
  | some m => if validDateTime m then some (tsInstant m) else none

/-! ## Geographic filter (`is_point_in_north_sea`, lines 62-71)

The containment test `any(north_sea_shape.contains(point))` over the
loaded shapefile is abstracted as a function from the coordinates to
`Except Unit Bool`: `Except.error` models an exception raised inside the
geometry library, which the Python function catches and turns into
`False`. -/

/-- `is_point_in_north_sea`: `False` when either coordinate is `None`,
`False` when the geometry test raises, otherwise the test's verdict. -/
def is_point_in_north_sea (lat lon : Option Int)
    (shape : Int → Int → Except Unit Bool) : Bool :=
  match lat, lon with
  | some la, some lo =>
      match shape la lo with
      | Except.ok b => b
      | Except.error _ => false
  | _, _ => false

/-! ## Dimension computation (lines 576-591)

`Dimension` is the AIS quadruple `{A, B, C, D}`; the Python code reads
`ship_data.get("Dimension", {})` and computes inside `if dimension:`,
so a missing or empty dictionary (modelled as `none`) leaves both
results unset. -/

structure Dims where
  A : Option Int
  B : Option Int
  C : Option Int
  D : Option Int
deriving DecidableEq

/-- Total length `A + B`, only when both offsets are present. -/
def compute_length (dim : Option Dims) : Option Int :=
  match dim with
  | none => none
  | some dm =>
      match dm.A, dm.B with
      | some a, some b => some (a + b)
      | _, _ => none

/-- Total width `C + D`, only when both offsets are present. -/
def compute_width (dim : Option Dims) : Option Int :=
  match dim with
  | none => none
  | some dm =>
      match dm.C, dm.D with
      | some c, some d => some (c + d)
      | _, _ => none

/-! ## Data model: table rows and batches

One structure per destination table (`ships`, `ship_static_data_temp`,
`ship_data`, `unknown_ships`).  Nullable columns are `Option`;
timestamps are the parsed instants. -/

structure ShipRow where
  imo_number : Int
  mmsi : Option Int
  name : String
  ship_type : Option Int
  length : Option Int
  width : Option Int
  max_draught : Option Int
deriving DecidableEq

structure StaticRow where
  imo_number : Int
  mmsi : Option Int
  name : String
  ship_type : Option Int
  length : Option Int
  width : Option Int
  max_draught : Option Int
  destination : String
  timestamp_ais : Int
  latitude : Int
  longitude : Int
deriving DecidableEq

structure PosRow where
  imo_number : Int
  timestamp_ais : Int
  latitude : Int
  longitude : Int
  destination : Option String
  sog : Option Int
  cog : Option Int
  navigational_status_code : Option Int
  rate_of_turn : Option Int
  true_heading : Option Int
deriving DecidableEq

structure UnknownRow where
  imo_number : Int
  mmsi : Option Int
  name : Option String
  ship_type : Option Int
  length : Option Int
  width : Option Int
  max_draught : Option Int
  destination : Option String
  timestamp_ais : Int
  latitude : Int
  longitude : Int
  sog : Option Int
  cog : Option Int
  navigational_status_code : Option Int
  rate_of_turn : Option Int
  true_heading : Option Int
deriving DecidableEq

/-- The four PostgreSQL tables the collector writes, each as the list of
its rows in insertion order. -/
structure Database where
  ships : List ShipRow
  ship_static_data_temp : List StaticRow
  ship_data : List PosRow
  unknown_ships : List UnknownRow
deriving DecidableEq

/-- The SQL `SET` clause of the `ON CONFLICT (imo_number) DO UPDATE`
upsert (lines 704-717): overwrite name, ship_type, length, width and
max_draught from the excluded row; `imo_number` and `mmsi` are left
untouched. -/
def overwrite (cur r : ShipRow) : ShipRow :=
  { cur with name := r.name, ship_type := r.ship_type, length := r.length,
             width := r.width, max_draught := r.max_draught }

/-- One row of the `INSERT INTO ships ... ON CONFLICT (imo_number) DO
UPDATE` statement: update the existing row with that primary key, or
append a fresh row. -/
def upsert_ship (table : List ShipRow) (r : ShipRow) : List ShipRow :=
  if table.any (fun row => row.imo_number == r.imo_number) then
    table.map (fun row =>
      if row.imo_number == r.imo_number then overwrite row r else row)
  else table ++ [r]

/-! ## Identity resolution (lines 391-408 and 660-672) -/

/-- Python dict lookup `mmsi_to_imo.get(m)` on the in-memory
MMSI-to-IMO mapping, kept as an association list. -/
def lookupAssoc (l : List (Int × Int)) (k : Int) : Option Int :=
  (l.find? (fun p => p.1 == k)).map (fun p => p.2)

/-- Python dict assignment `mmsi_to_imo[k] = v`: replace the value of an
existing key in place, or append a new binding. -/
def updateAssoc (l : List (Int × Int)) (k v : Int) : List (Int × Int) :=
  if l.any (fun p => p.1 == k) then
    l.map (fun p => if p.1 == k then (k, v) else p)
  else l ++ [(k, v)]

/-- `find_imo_by_mmsi` (lines 391-408): `if not mmsi: return None`
(Python falsiness: `None` or `0`), otherwise
`SELECT imo_number FROM ships WHERE mmsi = %s LIMIT 1` — no `ORDER BY`,
embedded as the first matching row in table order. -/
def find_imo_by_mmsi (ships : List ShipRow) (mmsi : Option Int) : Option Int :=
  match mmsi with
  | none => none
  | some m =>
      if m = 0 then none
      else (ships.find? (fun r => r.mmsi == some m)).map (fun r => r.imo_number)

/-- The position-report identity resolution of lines 660-672: consult the
in-memory mapping first; on a miss with a non-`None` MMSI call
`find_imo_by_mmsi` (which executes a store query unless the MMSI is
falsy) and write a hit through to the mapping.  Returns the resolved
IMO, the updated mapping, and the number of store queries executed. -/
def resolve_step (ships : List ShipRow) (mapping : List (Int × Int))
    (mmsi : Option Int) : Option Int × List (Int × Int) × Nat :=
  match mmsi with
  | none => (none, mapping, 0)
  | some m =>
      match lookupAssoc mapping m with
      | some i => (some i, mapping, 0)
      | none =>
          let q := if m = 0 then 0 else 1
          match find_imo_by_mmsi ships (some m) with
          | some i => (some i, updateAssoc mapping m i, q)
          | none => (none, mapping, q)

/-- The resolved IMO a position report ends up with (the first component
of `resolve_step`). -/
def resolved_imo (ships : List ShipRow) (mapping : List (Int × Int))
    (mmsi : Option Int) : Option Int :=
  (resolve_step ships mapping mmsi).1

/-- Modelled from the spec: "most recent match if multiple" — the
latest-inserted `ships` row whose MMSI matches.  The source query has no
`ORDER BY` (and the `ships` table has no recency column), so this
definition follows the spec's words, to be compared with
`find_imo_by_mmsi`. -/
def most_recent_imo_for_mmsi (ships : List ShipRow) (m : Int) : Option Int :=
  ((ships.filter (fun r => r.mmsi == some m)).getLast?).map (fun r => r.imo_number)

/-- `get_recent_destination` (lines 410-443): `if not imo_number` guard,
then the most recent `ship_static_data_temp` destination within the last
5 hours (`ORDER BY timestamp_ais DESC LIMIT 1`).  `dbNow` is the store's
`NOW()` in microseconds. -/
def get_recent_destination (tbl : List StaticRow) (dbNow : Int) (imo : Int) :
    Option String :=
  if imo = 0 then none
  else
    let cands := tbl.filter
      (fun r => r.imo_number == imo && decide (r.timestamp_ais > dbNow - 18000000000))
    (cands.foldl
      (fun acc r =>
        match acc with
        | none => some r
        | some mx => if r.timestamp_ais > mx.timestamp_ais then some r else some mx)
      none).map (fun r => r.destination)

/-! ## Messages and the receive-loop state (`connect_ais_stream`)

A decoded feed message: the envelope's `MetaData` plus the typed
payload.  `missingType` models a JSON object without a `MessageType`
key (line 542, skipped outright); `otherType` models a message whose
type is neither handled branch (it still passes through the metadata
gates and reaches the flush check). -/

structure MetaData where
  mmsi : Option Int
  latitude : Option Int
  longitude : Option Int
  time_utc : String
deriving DecidableEq

structure StaticPayload where
  imoNumber : Option Int
  name : Option String
  shipType : Option Int
  dimension : Option Dims
  maxDraught : Option Int
  destination : Option String
deriving DecidableEq

structure PositionPayload where
  sog : Option Int
  cog : Option Int
  navStatus : Option Int
  rateOfTurn : Option Int
  trueHeading : Option Int
deriving DecidableEq

inductive Message where
  | shipStaticData (meta : MetaData) (p : StaticPayload)
  | positionReport (meta : MetaData) (p : PositionPayload)
  | otherType (meta : MetaData)
  | missingType
deriving DecidableEq

/-- The metadata of a message, when the envelope carries one. -/
def metaOf : Message → Option MetaData
  | Message.shipStaticData meta _ => some meta
  | Message.positionReport meta _ => some meta
  | Message.otherType meta => some meta
  | Message.missingType => none

/-- The mutable locals of `connect_ais_stream` that the claims are
about: the identity mapping, the four pending batch lists, the commit
clock and the statistics counters.  (The per-minute logging counters and
the wall-clock log timer are pure observability and are omitted.) -/
structure LoopState where
  mmsi_to_imo : List (Int × Int)
  ships_batch : List ShipRow
  static_data_batch : List StaticRow
  position_data_batch : List PosRow
  unknown_data_batch : List UnknownRow
  last_commit_time : Int
  collected_count : Nat
  filtered_count : Nat
  static_data_count : Nat
  position_data_count : Nat
  no_imo_filtered_count : Nat
  unique_vessels : List Int
  unique_vessels_with_imo : List Int
deriving DecidableEq

/-- Python `set.add`: insert if absent (the lists play the role of the
`unique_vessels` sets). -/
def insertSet (l : List Int) (x : Int) : List Int :=
  if x ∈ l then l else l ++ [x]

/-- The `ShipStaticData` branch (lines 569-644).  `ts`, `la`, `lo` are
the already-gated timestamp and coordinates. -/
def handle_static (saveNoImo : Bool) (meta : MetaData) (p : StaticPayload)
    (ts la lo : Int) (s : LoopState) : LoopState :=
  let name := p.name.getD "Unknown"
  let length := compute_length p.dimension
  let width := compute_width p.dimension
  let destination := p.destination.getD "Unknown"
  let validImo : Bool := p.imoNumber ≠ none && p.imoNumber ≠ some 0
  let s1 :=
    match meta.mmsi with
    | some m =>
        if m ≠ 0 then
          { s with unique_vessels := insertSet s.unique_vessels m,
                   unique_vessels_with_imo :=
                     if validImo then insertSet s.unique_vessels_with_imo m
                     else s.unique_vessels_with_imo }
        else s
    | none => s
  let s2 :=
    match p.imoNumber, meta.mmsi with
    | some imo, some m =>
        if imo ≠ 0 then { s1 with mmsi_to_imo := updateAssoc s1.mmsi_to_imo m imo }
        else s1
    | _, _ => s1
  match p.imoNumber with
  | some imo =>
      if imo ≠ 0 then
        { s2 with
          ships_batch := s2.ships_batch ++
            [{ imo_number := imo, mmsi := meta.mmsi, name := name,
               ship_type := p.shipType, length := length, width := width,
               max_draught := p.maxDraught }],
          static_data_batch := s2.static_data_batch ++
            [{ imo_number := imo, mmsi := meta.mmsi, name := name,
               ship_type := p.shipType, length := length, width := width,
               max_draught := p.maxDraught, destination := destination,
               timestamp_ais := ts, latitude := la, longitude := lo }],
          static_data_count := s2.static_data_count + 1,
          collected_count := s2.collected_count + 1 }
      else
        if saveNoImo then
          { s2 with
            unknown_data_batch := s2.unknown_data_batch ++
              [{ imo_number := 0, mmsi := meta.mmsi, name := some name,
                 ship_type := p.shipType, length := length, width := width,
                 max_draught := p.maxDraught, destination := some destination,
                 timestamp_ais := ts, latitude := la, longitude := lo,
                 sog := none, cog := none, navigational_status_code := none,
                 rate_of_turn := none, true_heading := none }],
            collected_count := s2.collected_count + 1 }
        else
          { s2 with no_imo_filtered_count := s2.no_imo_filtered_count + 1,
                    collected_count := s2.collected_count + 1 }
  | none =>
      if saveNoImo then
        { s2 with
          unknown_data_batch := s2.unknown_data_batch ++
            [{ imo_number := -1, mmsi := meta.mmsi, name := some name,
               ship_type := p.shipType, length := length, width := width,
               max_draught := p.maxDraught, destination := some destination,
               timestamp_ais := ts, latitude := la, longitude := lo,
               sog := none, cog := none, navigational_status_code := none,
               rate_of_turn := none, true_heading := none }],
          collected_count := s2.collected_count + 1 }
      else
        { s2 with no_imo_filtered_count := s2.no_imo_filtered_count + 1,
                  collected_count := s2.collected_count + 1 }

/-- The `PositionReport` branch (lines 646-694). -/
def handle_position (saveNoImo : Bool) (db : Database) (dbNow : Int)
    (meta : MetaData) (p : PositionPayload) (ts la lo : Int) (s : LoopState) :
    LoopState :=
  let s1 :=
    match meta.mmsi with
    | some m =>
        if m ≠ 0 then { s with unique_vessels := insertSet s.unique_vessels m }
        else s
    | none => s
  let r := resolve_step db.ships s1.mmsi_to_imo meta.mmsi
  let s2 :=
    { s1 with
      mmsi_to_imo := r.2.1,
      unique_vessels_with_imo :=
        match meta.mmsi, r.1 with
        | some m, some _ => insertSet s1.unique_vessels_with_imo m
        | _, _ => s1.unique_vessels_with_imo }
  match r.1 with
  | some i =>
      { s2 with
        position_data_batch := s2.position_data_batch ++
          [{ imo_number := i, timestamp_ais := ts, latitude := la,
             longitude := lo,
             destination := get_recent_destination db.ship_static_data_temp dbNow i,
             sog := p.sog, cog := p.cog, navigational_status_code := p.navStatus,
             rate_of_turn := p.rateOfTurn, true_heading := p.trueHeading }],
        position_data_count := s2.position_data_count + 1,
        collected_count := s2.collected_count + 1 }
  | none =>
      if saveNoImo then
        { s2 with
          unknown_data_batch := s2.unknown_data_batch ++
            [{ imo_number := -1, mmsi := meta.mmsi, name := none,
               ship_type := none, length := none, width := none,
               max_draught := none, destination := none, timestamp_ais := ts,
               latitude := la, longitude := lo, sog := p.sog, cog := p.cog,
               navigational_status_code := p.navStatus,
               rate_of_turn := p.rateOfTurn, true_heading := p.trueHeading }],
          collected_count := s2.collected_count + 1 }
      else
        { s2 with no_imo_filtered_count := s2.no_imo_filtered_count + 1,
                  collected_count := s2.collected_count + 1 }

/-- The metadata gates of lines 546-567 in source order: absent
coordinate → bare `continue` (no counter); out-of-region → `continue`
with the filtered counter incremented; unparsable timestamp →
`continue`.  `k` is the per-type processing; the returned flag records
whether execution fell through to the flush check of line 696. -/
def gate_meta (geo : Int → Int → Except Unit Bool) (s : LoopState)
    (meta : MetaData) (k : Int → Int → Int → LoopState × Bool) :
    LoopState × Bool :=
  match meta.latitude, meta.longitude with
  | some la, some lo =>
      if is_point_in_north_sea (some la) (some lo) geo then
        match parse_timestamp meta.time_utc with
        | some ts => k ts la lo
        | none => (s, false)
      else ({ s with filtered_count := s.filtered_count + 1 }, false)
  | _, _ => (s, false)

/-- Processing of one received message (lines 540-694), excluding the
flush check: the gates, then the per-type branch.  The flag is true iff
control reaches the flush condition of line 696. -/
def handle_message (saveNoImo : Bool) (geo : Int → Int → Except Unit Bool)
    (db : Database) (dbNow : Int) (s : LoopState) (msg : Message) :
    LoopState × Bool :=
  match msg with
  | Message.missingType => (s, false)
  | Message.shipStaticData meta p =>
      gate_meta geo s meta
        (fun ts la lo => (handle_static saveNoImo meta p ts la lo s, true))
  | Message.positionReport meta p =>
      gate_meta geo s meta
        (fun ts la lo => (handle_position saveNoImo db dbNow meta p ts la lo s, true))
  | Message.otherType meta =>
      gate_meta geo s meta (fun _ _ _ => (s, true))

/-! ## Batched transactional persistence (lines 696-771, 850-905) -/

/-- `BATCH_SIZE` (line 49). -/
def BATCH_SIZE : Nat := 100

/-- The combined pending count of line 698:
`len(ships_batch) + len(static_data_batch) + len(position_data_batch) +
len(unknown_data_batch)`. -/
def combined_pending (s : LoopState) : Nat :=
  s.ships_batch.length + s.static_data_batch.length +
    s.position_data_batch.length + s.unknown_data_batch.length

/-- The statement at which a database error is raised during a flush
(`none`: the whole transaction succeeds).  An `executemany` can only
fail if it runs, i.e. if its batch is non-empty. -/
inductive WriteStep where
  | ships
  | staticData
  | positionData
  | unknownData
  | commit
deriving DecidableEq

/-- The flush body (lines 702-771): run the four `executemany`
statements in order, **clearing each pending list immediately after its
statement returns**, then `conn.commit()`.  On a `psycopg2.Error` the
transaction is rolled back (the database is unchanged), the loop
continues with whatever the lists hold at that point, and
`last_commit_time` is only advanced on a successful commit. -/
def flush_batches (db : Database) (s : LoopState) (now : Int)
    (failAt : Option WriteStep) : Database × LoopState :=
  if failAt = some WriteStep.ships ∧ s.ships_batch ≠ [] then (db, s)
  else
    let db1 := { db with ships := s.ships_batch.foldl upsert_ship db.ships }
    let s1 := { s with ships_batch := ([] : List ShipRow) }
    if failAt = some WriteStep.staticData ∧ s1.static_data_batch ≠ [] then (db, s1)
    else
      let db2 := { db1 with ship_static_data_temp :=
        db1.ship_static_data_temp ++ s1.static_data_batch }
      let s2 := { s1 with static_data_batch := ([] : List StaticRow) }
      if failAt = some WriteStep.positionData ∧ s2.position_data_batch ≠ [] then
        (db, s2)
      else
        let db3 := { db2 with ship_data := db2.ship_data ++ s2.position_data_batch }
        let s3 := { s2 with position_data_batch := ([] : List PosRow) }
        if failAt = some WriteStep.unknownData ∧ s3.unknown_data_batch ≠ [] then
          (db, s3)
        else
          let db4 := { db3 with unknown_ships :=
            db3.unknown_ships ++ s3.unknown_data_batch }
          let s4 := { s3 with unknown_data_batch := ([] : List UnknownRow) }
          if failAt = some WriteStep.commit then (db, s4)
          else (db4, { s4 with last_commit_time := now })

/-- One full iteration of the receive loop: process the message, then —
only if control fell through to line 696 — flush when the combined
pending count has reached `BATCH_SIZE` or at least 10 seconds have
passed since the last commit (`now` is `time.time()` in seconds for the
commit clock; `dbNow` is the store's clock for the destination
look-back). -/
def loop_step (saveNoImo : Bool) (geo : Int → Int → Except Unit Bool)
    (db : Database) (dbNow now : Int) (s : LoopState) (msg : Message)
    (failAt : Option WriteStep) : Database × LoopState :=
  let hs := handle_message saveNoImo geo db dbNow s msg
  if hs.2 = true ∧
      (combined_pending hs.1 ≥ BATCH_SIZE ∨ now - hs.1.last_commit_time ≥ 10) then
    flush_batches db hs.1 now failAt
  else (db, hs.1)

/-! ## Startup and process exit (lines 456-469 and 907-923) -/

/-- `MAX_DB_RETRIES` (line 47). -/
def MAX_DB_RETRIES : Nat := 3

/-- The startup `for attempt in range(MAX_DB_RETRIES)` connection loop
(lines 456-469), driven by the list of attempt outcomes (`true` = the
`psycopg2.connect` call succeeds).  Returns the successful attempt index
(or `none` when every attempt failed, upon which `connect_ais_stream`
logs "Maximum database connection attempts reached" and returns)
together with the list of backoff delays `2 ** attempt` slept between
failed attempts (no sleep follows the last attempt). -/
def db_connect_go (attempt : Nat) : List Bool → Option Nat × List Nat
  | [] => (none, [])
  | ok :: rest =>
      if ok then (some attempt, [])
      else if rest = [] then (none, [])
      else
        let r := db_connect_go (attempt + 1) rest
        (r.1, 2 ^ attempt :: r.2)

/-- The startup store-connection retry loop: exactly the first
`MAX_DB_RETRIES` attempt outcomes are consumed. -/
def db_connect_retry (results : List Bool) : Option Nat × List Nat :=
  db_connect_go 0 (results.take MAX_DB_RETRIES)

/-- How a run of the `__main__` block ends. The retry loop is driven by
the list of attempt outcomes (`true` = the connection succeeds). -/
inductive MainOutcome where
  | streaming
  | dbRetriesExhausted
  | shapefileMissing
  | startupException
deriving DecidableEq

/-- The `__main__` block (lines 907-923).  Every failure path either
falls off the end of the script or is swallowed by the blanket
`except Exception` (which only logs), so the interpreter terminates
normally: the exit status is `some 0` on every exit path.  Only a
successful startup enters the endless receive loop (`none`: the process
does not exit). -/
def run_main (migrateRaises shapefileMissing shapeLoadRaises : Bool)
    (dbResults : List Bool) : MainOutcome × Option Nat :=
  if migrateRaises then (MainOutcome.startupException, some 0)
  else if shapefileMissing then (MainOutcome.shapefileMissing, some 0)
  else if shapeLoadRaises then (MainOutcome.startupException, some 0)
  else
    match (db_connect_retry dbResults).1 with
    | none => (MainOutcome.dbRetriesExhausted, some 0)
    | some _ => (MainOutcome.streaming, none)

/-! ## Shared sample inputs used by witnesses -/

/-- The all-empty database. -/
def emptyDb : Database := ⟨[], [], [], []⟩

/-- The loop state as initialized before the first message, with the
commit clock started at 0. -/
def initState : LoopState :=
  ⟨[], [], [], [], [], 0, 0, 0, 0, 0, 0, [], []⟩

/-- A geometry test that always succeeds with containment. -/
def geoYes : Int → Int → Except Unit Bool := fun _ _ => Except.ok true

/-- A well-formed feed timestamp used by concrete inputs. -/
def tsOk : String := "2024-01-02 03:04:05.123456 +0000 UTC"

/-- A sample registry upsert row. -/
def sampleShip : ShipRow :=
  ⟨9123456, some 230000001, "EVER GIVEN", some 70, some 150, some 20, some 12⟩

/-- A later static message for the same IMO with every overwritable
field changed and a different MMSI. -/
def sampleShip2 : ShipRow :=
  ⟨9123456, some 999, "EVER GIVEN II", some 71, some 151, some 21, some 13⟩

/-- A sample static-observation row. -/
def sampleStatic : StaticRow :=
  ⟨9123456, some 230000001, "EVER GIVEN", some 70, some 150, some 20, some 12,
   "ROTTERDAM", 1704164645123456, 54, 3⟩

/-- Sample metadata passing every gate. -/
def metaSample : MetaData := ⟨some 230000001, some 54, some 3, tsOk⟩

/-- A sample position payload. -/
def posPayloadSample : PositionPayload := ⟨some 12, some 200, some 0, some 1, some 90⟩

end AisCollector

namespace AisCollector

/-! ## Helper lemmas -/

theorem upsert_ship_not_mem (t : List ShipRow) (r : ShipRow)
    (ht : ∀ x ∈ t, x.imo_number ≠ r.imo_number) : upsert_ship t r = t ++ [r] := by
  have h : ¬ (t.any (fun row => row.imo_number == r.imo_number) = true) := by
    intro hc
    rcases List.any_eq_true.mp hc with ⟨x, hx, hxk⟩
    exact ht x hx (by simpa using hxk)
  simp [upsert_ship, h]

theorem upsert_ship_update (t : List ShipRow) (cur r : ShipRow)
    (ht : ∀ x ∈ t, x.imo_number ≠ r.imo_number)
    (hcur : cur.imo_number = r.imo_number) :
    upsert_ship (t ++ [cur]) r = t ++ [overwrite cur r] := by
  have hany : (t ++ [cur]).any (fun row => row.imo_number == r.imo_number) = true := by
    simp [List.any_append, hcur]
  simp only [upsert_ship, hany, if_true, List.map_append]
  congr 1
  · have hmap : ∀ x ∈ t,
        (if x.imo_number == r.imo_number then overwrite x r else x) = x := by
      intro x hx
      rw [if_neg]
      simp [ht x hx]
    calc t.map (fun x => if x.imo_number == r.imo_number then overwrite x r else x)
        = t.map (fun x => x) := List.map_congr_left hmap
      _ = t := List.map_id t
  · simp [hcur]

theorem foldl_upsert_after_insert (i : Int) (rs : List ShipRow)
    (t : List ShipRow) (cur : ShipRow) (ht : ∀ x ∈ t, x.imo_number ≠ i)
    (hcur : cur.imo_number = i) (hall : ∀ x ∈ rs, x.imo_number = i) :
    rs.foldl upsert_ship (t ++ [cur]) = t ++ [rs.foldl overwrite cur] := by
  induction rs generalizing cur with
  | nil => rfl
  | cons r rest ih =>
      have hr : r.imo_number = i := hall r (by simp)
      have step : upsert_ship (t ++ [cur]) r = t ++ [overwrite cur r] :=
        upsert_ship_update t cur r (fun x hx => by rw [hr]; exact ht x hx)
          (by rw [hcur, hr])
      simp only [List.foldl_cons, step]
      exact ih (overwrite cur r) hcur (fun x hx => hall x (by simp [hx]))

theorem foldl_overwrite_eq (rs : List ShipRow) (cur : ShipRow) :
    rs.foldl overwrite cur =
      ⟨cur.imo_number, cur.mmsi, (rs.getLastD cur).name, (rs.getLastD cur).ship_type,
       (rs.getLastD cur).length, (rs.getLastD cur).width,
       (rs.getLastD cur).max_draught⟩ := by
  induction rs generalizing cur with
  | nil => rfl
  | cons r rest ih =>
      simp only [List.foldl_cons]
      rw [ih (overwrite cur r)]
      cases rest with
      | nil => rfl
      | cons r2 rest2 =>
          rw [List.getLastD_cons (overwrite cur r) r2 rest2,
              List.getLastD_cons cur r (r2 :: rest2),
              List.getLastD_cons r r2 rest2]
          rfl

theorem lookup_updateAssoc_self (l : List (Int × Int)) (k v : Int) :
    lookupAssoc (updateAssoc l k v) k = some v := by
  unfold updateAssoc
  by_cases hany : l.any (fun p => p.1 == k) = true
  · rw [if_pos hany]
    induction l with
    | nil => simp at hany
    | cons p tl ih =>
        by_cases hpk : p.1 = k
        · simp [lookupAssoc, List.find?_cons, hpk]
        · have htl : tl.any (fun p => p.1 == k) = true := by
            rcases List.any_eq_true.mp hany with ⟨x, hx, hxk⟩
            rcases List.mem_cons.mp hx with hx | hx
            · exact absurd (by simpa [hx] using hxk) hpk
            · exact List.any_eq_true.mpr ⟨x, hx, hxk⟩
          have hih := ih htl
          simpa [lookupAssoc, List.find?_cons, hpk] using hih
  · rw [if_neg hany]
    have hfind : l.find? (fun p => p.1 == k) = none := by
      rw [List.find?_eq_none]
      intro x hx
      intro hc
      exact hany (List.any_eq_true.mpr ⟨x, hx, hc⟩)
    simp [lookupAssoc, List.find?_append, hfind]

/-! ## Claim theorems -/

/-- C10: the point-in-region check is total and never raises to its
caller: it returns `false` when latitude or longitude is absent, it
returns `false` when the underlying geometry test raises (the caught
exception is modelled by `Except.error`), and otherwise it returns the
geometry test's boolean verdict — an internal geometry error makes the
message count as out-of-region instead of aborting the receive loop. -/
theorem point_check_total (lat lon : Option Int) (la lo : Int) (e : Unit)
    (b : Bool) (geo : Int → Int → Except Unit Bool) :
    ((lat = none ∨ lon = none) → is_point_in_north_sea lat lon geo = false)
  ∧ (lat = some la → lon = some lo → geo la lo = Except.error e →
      is_point_in_north_sea lat lon geo = false)
  ∧ (lat = some la → lon = some lo → geo la lo = Except.ok b →
      is_point_in_north_sea lat lon geo = b) := by
  refine ⟨?_, ?_, ?_⟩
  · rintro (rfl | rfl)
    · cases lon <;> rfl
    · cases lat <;> rfl
  · rintro rfl rfl hg
    simp [is_point_in_north_sea, hg]
  · rintro rfl rfl hg
    simp [is_point_in_north_sea, hg]

/-- Witness for C10: at concrete inputs, an absent latitude gives
`false`, and a raising geometry test gives `false`. -/
theorem point_check_total_witness :
    is_point_in_north_sea none (some 3) (fun _ _ => Except.error ()) = false
  ∧ is_point_in_north_sea (some 54) (some 3) (fun _ _ => Except.error ()) = false := by
  constructor
  · exact (point_check_total none (some 3) 54 3 () true
      (fun _ _ => Except.error ())).1 (Or.inl rfl)
  · exact (point_check_total (some 54) (some 3) 54 3 () true
      (fun _ _ => Except.error ())).2.1 rfl rfl rfl

/-- C6: computed length is `A + B` exactly when both `A` and `B` are
present and is absent when either is missing; computed width is `C + D`
exactly when both `C` and `D` are present and is absent when either is
missing; an absent (or empty) `Dimension` dictionary produces neither —
never a partial computation from one operand. -/
theorem dimension_computation (a b c d : Option Int) :
    ((a = none ∨ b = none) → compute_length (some ⟨a, b, c, d⟩) = none)
  ∧ (a.isSome → b.isSome →
      compute_length (some ⟨a, b, c, d⟩) = some (a.getD 0 + b.getD 0))
  ∧ ((c = none ∨ d = none) → compute_width (some ⟨a, b, c, d⟩) = none)
  ∧ (c.isSome → d.isSome →
      compute_width (some ⟨a, b, c, d⟩) = some (c.getD 0 + d.getD 0))
  ∧ compute_length none = none ∧ compute_width none = none := by
  refine ⟨?_, ?_, ?_, ?_, rfl, rfl⟩
  · rintro (rfl | rfl)
    · rfl
    · cases a <;> rfl
  · intro ha hb
    rcases Option.isSome_iff_exists.mp ha with ⟨x, rfl⟩
    rcases Option.isSome_iff_exists.mp hb with ⟨y, rfl⟩
    rfl
  · rintro (rfl | rfl)
    · cases a <;> cases b <;> rfl
    · cases a <;> cases b <;> cases c <;> rfl
  · intro hc hd
    rcases Option.isSome_iff_exists.mp hc with ⟨x, rfl⟩
    rcases Option.isSome_iff_exists.mp hd with ⟨y, rfl⟩
    cases a <;> cases b <;> rfl

/-- Witness for C6, at the end-to-end quadruple A=100, B=50, C=10,
D=10 of the spec and at a quadruple with a missing operand. -/
theorem dimension_computation_witness :
    compute_length (some ⟨some 100, some 50, some 10, some 10⟩) = some 150
  ∧ compute_width (some ⟨some 100, some 50, some 10, some 10⟩) = some 20
  ∧ compute_length (some ⟨some 100, none, some 10, some 10⟩) = none := by
  refine ⟨?_, ?_, ?_⟩
  · exact (dimension_computation (some 100) (some 50) (some 10) (some 10)).2.1 rfl rfl
  · exact (dimension_computation (some 100) (some 50) (some 10) (some 10)).2.2.2.1 rfl rfl
  · exact (dimension_computation (some 100) none (some 10) (some 10)).1 (Or.inr rfl)

/-- C5 counterexample: the claim says every input string not of the
exact shape `"YYYY-MM-DD HH:MM:SS.<fractional> +HHMM UTC"` fails with a
malformed-timestamp error.  But `parse_timestamp` removes every
occurrence of `" UTC"` before matching, so the trailing `" UTC"` marker
is not required: the string `"2024-01-02 03:04:05.123456 +0000"` — not
of the exact shape, the marker is missing — parses successfully, to the
very instant of the well-formed variant. -/
theorem parse_timestamp_accepts_missing_utc_suffix :
    (parse_timestamp "2024-01-02 03:04:05.123456 +0000").isSome = true
  ∧ parse_timestamp "2024-01-02 03:04:05.123456 +0000" =
      parse_timestamp "2024-01-02 03:04:05.123456 +0000 UTC" := by
  constructor
  · decide
  · decide

/-- C5 amended: the nine-digit and six-digit fractional variants
normalize to the same instant (the fraction is truncated to 6 digits); a
string missing the `+HHMM` offset fails; and every string that — after
removing the occurrences of `" UTC"` — does not match
`"YYYY-MM-DD HH:MM:SS.<fractional> +HHMM"` fails with a
malformed-timestamp error (`none`) rather than returning an instant.
(The trailing `" UTC"` marker itself is optional and may appear
anywhere, per the counterexample.) -/
theorem parse_timestamp_shape (s : String)
    (hs : matchTsPattern (stripUTC s.data) = none) :
    parse_timestamp s = none
  ∧ parse_timestamp "2024-01-02 03:04:05.123456789 +0000 UTC" =
      parse_timestamp "2024-01-02 03:04:05.123456 +0000 UTC"
  ∧ (parse_timestamp "2024-01-02 03:04:05.123456 +0000 UTC").isSome = true
  ∧ parse_timestamp "2024-01-02 03:04:05.123456789 UTC" = none := by
  refine ⟨?_, by decide, by decide, by decide⟩
  unfold parse_timestamp
  rw [hs]

/-- Witness for C5 at the concrete non-matching string `"invalid"`. -/
theorem parse_timestamp_shape_witness :
    parse_timestamp "invalid" = none
  ∧ parse_timestamp "2024-01-02 03:04:05.123456789 +0000 UTC" =
      parse_timestamp "2024-01-02 03:04:05.123456 +0000 UTC"
  ∧ (parse_timestamp "2024-01-02 03:04:05.123456 +0000 UTC").isSome = true
  ∧ parse_timestamp "2024-01-02 03:04:05.123456789 UTC" = none :=
  parse_timestamp_shape "invalid" (by decide)

/-- C1: the claim says that on any write failure the transaction is
rolled back in full and every pending list still contains exactly the
records it held before the flush attempt.  The code violates the second
half: each pending list is cleared immediately after its `executemany`
returns, before `conn.commit()`, so when a later statement fails the
rollback undoes the database writes but cannot restore the
already-cleared lists.  Concretely: with one pending vessel upsert and
one pending static observation, a failure in the static-observation
statement leaves the database untouched (rolled back) but the vessel
upsert has vanished from the pending lists — the record is lost.  The
success path (failure point `none`) does commit all four categories in
one transaction and only then clears the lists and advances the commit
clock. -/
theorem flush_rollback_loses_cleared_batches :
    flush_batches emptyDb
        { initState with ships_batch := [sampleShip],
                         static_data_batch := [sampleStatic] }
        100 (some WriteStep.staticData) =
      (emptyDb, { initState with static_data_batch := [sampleStatic] })
  ∧ flush_batches emptyDb
        { initState with ships_batch := [sampleShip],
                         static_data_batch := [sampleStatic] }
        100 none =
      (⟨[sampleShip], [sampleStatic], [], []⟩,
       { initState with last_commit_time := 100 }) := by
  constructor
  · decide
  · decide

/-- C9 counterexample: the claim says that when every startup
connection attempt fails the process exits with a non-zero status.  In
the code `connect_ais_stream` merely logs and returns, `asyncio.run`
returns, the `__main__` `try` block completes (and any exception would
be caught and only logged), so the interpreter terminates normally —
the exit status is 0, not non-zero. -/
theorem startup_exhaustion_exits_zero :
    run_main false false false [false, false, false] =
      (MainOutcome.dbRetriesExhausted, some 0) := by
  decide

/-- C9 amended: a failed startup store connection is retried up to
`MAX_DB_RETRIES = 3` attempts with exponential backoff (delays
`2 ** attempt`, i.e. 1 s then 2 s, slept between failed attempts); if
every attempt fails the collector logs the cause and returns, the
process terminates — but with exit status 0, not a non-zero status. -/
theorem startup_retry_behavior (results : List Bool)
    (h : results.take MAX_DB_RETRIES = [false, false, false]) :
    db_connect_retry results = (none, [1, 2])
  ∧ run_main false false false results =
      (MainOutcome.dbRetriesExhausted, some 0) := by
  have hdb : db_connect_retry results = (none, [1, 2]) := by
    unfold db_connect_retry
    rw [h]
    decide
  refine ⟨hdb, ?_⟩
  unfold run_main
  rw [hdb]
  rfl

/-- Witness for C9 at the concrete all-failing outcome list. -/
theorem startup_retry_behavior_witness :
    db_connect_retry [false, false, false] = (none, [1, 2])
  ∧ run_main false false false [false, false, false] =
      (MainOutcome.dbRetriesExhausted, some 0) :=
  startup_retry_behavior [false, false, false] (by decide)

/-- C4: for every sequence of static messages with the same valid IMO
(the row `r` followed by `rest`), after all of them are upserted into a
registry `t` that has no row for that IMO yet, the registry contains
exactly one row for the IMO: its name, type, length, width and
max draught are the values of the latest message
(`rest.getLastD r` — last-write-wins), its MMSI is the one the row was
created with (`r.mmsi` — the conflict-update path never overwrites
MMSI), and every other registry row is untouched.  Applying the theorem
to each prefix of the sequence gives the "after each is upserted"
reading of the claim. -/
theorem ships_upsert_last_write_wins (t : List ShipRow) (i : Int)
    (ht : ∀ x ∈ t, x.imo_number ≠ i) (r : ShipRow) (rest : List ShipRow)
    (hr : r.imo_number = i) (hall : ∀ x ∈ rest, x.imo_number = i) :
    ((r :: rest).foldl upsert_ship t).filter (fun x => x.imo_number == i) =
      [⟨i, r.mmsi, (rest.getLastD r).name, (rest.getLastD r).ship_type,
        (rest.getLastD r).length, (rest.getLastD r).width,
        (rest.getLastD r).max_draught⟩]
  ∧ ((r :: rest).foldl upsert_ship t).filter (fun x => !(x.imo_number == i)) = t := by
  have h1 : (r :: rest).foldl upsert_ship t = t ++ [rest.foldl overwrite r] := by
    simp only [List.foldl_cons]
    rw [upsert_ship_not_mem t r (fun x hx => by rw [hr]; exact ht x hx)]
    exact foldl_upsert_after_insert i rest t r ht hr hall
  have h2 := foldl_overwrite_eq rest r
  rw [h1, h2, List.filter_append, List.filter_append]
  constructor
  · have hnil : t.filter (fun x => x.imo_number == i) = [] := by
      rw [List.filter_eq_nil_iff]
      intro x hx
      simp [ht x hx]
    rw [hnil]
    simp [hr]
  · have hself : t.filter (fun x => !(x.imo_number == i)) = t := by
      rw [List.filter_eq_self]
      intro x hx
      simp [ht x hx]
    rw [hself]
    simp [hr]

/-- Witness for C4: two concrete static messages for IMO 9123456 — the
final registry row keeps the first message's MMSI but carries every
overwritable field of the second message, and exactly one row exists. -/
theorem ships_upsert_last_write_wins_witness :
    (([sampleShip, sampleShip2].foldl upsert_ship
        ([] : List ShipRow)).filter (fun x => x.imo_number == 9123456)) =
      [⟨9123456, some 230000001, "EVER GIVEN II", some 71, some 151, some 21,
        some 13⟩]
  ∧ (([sampleShip, sampleShip2].foldl upsert_ship
        ([] : List ShipRow)).filter (fun x => !(x.imo_number == 9123456))) = [] :=
  ships_upsert_last_write_wins [] 9123456 (by simp) sampleShip [sampleShip2]
    (by decide) (by decide)

/-- C7 counterexample: the claim says the store query selects the most
recent match when multiple registry rows share the MMSI.  The source
query is `SELECT imo_number FROM ships WHERE mmsi = %s LIMIT 1` with no
`ORDER BY` (and `ships` has no recency column), embedded as the first
matching row in table order: with two rows sharing MMSI 5 — IMO 100
inserted first, IMO 200 inserted later (the most recent) — resolution
returns 100, not the most recent 200. -/
theorem resolve_not_most_recent :
    resolved_imo [⟨100, some 5, "A", none, none, none, none⟩,
                  ⟨200, some 5, "B", none, none, none, none⟩] [] (some 5) =
      some 100
  ∧ most_recent_imo_for_mmsi [⟨100, some 5, "A", none, none, none, none⟩,
                              ⟨200, some 5, "B", none, none, none, none⟩] 5 =
      some 200
  ∧ (100 : Int) ≠ 200 := by
  refine ⟨by decide, by decide, by decide⟩

/-- C7 amended: for an MMSI with no entry in the in-memory mapping,
resolution queries the persistent store at most once (an arbitrary
matching row — the first in table order — not necessarily the most
recent); on a hit the result is written through to the in-memory
mapping, so a second resolve call for the same MMSI returns the same
IMO with no store query; on a total miss resolution returns absent. -/
theorem resolve_cache_behavior (ships : List ShipRow)
    (mapping : List (Int × Int)) (m : Int)
    (hmem : lookupAssoc mapping m = none) :
    (resolve_step ships mapping (some m)).2.2 ≤ 1
  ∧ (find_imo_by_mmsi ships (some m) = none →
      (resolve_step ships mapping (some m)).1 = none)
  ∧ ((find_imo_by_mmsi ships (some m)).isSome →
      (resolve_step ships mapping (some m)).1 = find_imo_by_mmsi ships (some m)
      ∧ resolve_step ships ((resolve_step ships mapping (some m)).2.1) (some m) =
          (find_imo_by_mmsi ships (some m),
           (resolve_step ships mapping (some m)).2.1, 0)) := by
  cases hf : find_imo_by_mmsi ships (some m) with
  | none =>
      refine ⟨?_, fun _ => ?_, fun hs => ?_⟩
      · simp only [resolve_step, hmem, hf]
        split <;> norm_num
      · simp [resolve_step, hmem, hf]
      · simp at hs
  | some i =>
      refine ⟨?_, fun hn => ?_, fun _ => ?_⟩
      · simp only [resolve_step, hmem, hf]
        split <;> norm_num
      · simp at hn
      · have hfst : (resolve_step ships mapping (some m)).1 = some i := by
          simp [resolve_step, hmem, hf]
        have hmap : (resolve_step ships mapping (some m)).2.1 =
            updateAssoc mapping m i := by
          simp [resolve_step, hmem, hf]
        refine ⟨hfst, ?_⟩
        rw [hmap]
        simp [resolve_step, lookup_updateAssoc_self]

/-- Witness for C7: a store with one row for MMSI 7 and an empty
mapping — one query, a cached hit, and a query-free second call. -/
theorem resolve_cache_behavior_witness :
    (resolve_step [⟨300, some 7, "C", none, none, none, none⟩] [] (some 7)).2.2 ≤ 1
  ∧ (find_imo_by_mmsi [⟨300, some 7, "C", none, none, none, none⟩] (some 7) = none →
      (resolve_step [⟨300, some 7, "C", none, none, none, none⟩] [] (some 7)).1 = none)
  ∧ ((find_imo_by_mmsi [⟨300, some 7, "C", none, none, none, none⟩] (some 7)).isSome →
      (resolve_step [⟨300, some 7, "C", none, none, none, none⟩] [] (some 7)).1 =
        find_imo_by_mmsi [⟨300, some 7, "C", none, none, none, none⟩] (some 7)
      ∧ resolve_step [⟨300, some 7, "C", none, none, none, none⟩]
            ((resolve_step [⟨300, some 7, "C", none, none, none, none⟩] [] (some 7)).2.1)
            (some 7) =
          (find_imo_by_mmsi [⟨300, some 7, "C", none, none, none, none⟩] (some 7),
           (resolve_step [⟨300, some 7, "C", none, none, none, none⟩] [] (some 7)).2.1,
           0)) :=
  resolve_cache_behavior [⟨300, some 7, "C", none, none, none, none⟩] [] 7 (by decide)

theorem gate_meta_absent (geo : Int → Int → Except Unit Bool) (s : LoopState)
    (meta : MetaData) (k : Int → Int → Int → LoopState × Bool)
    (h : meta.latitude = none ∨ meta.longitude = none) :
    gate_meta geo s meta k = (s, false) := by
  rcases h with h | h
  · cases hlon : meta.longitude <;> simp [gate_meta, h, hlon]
  · cases hlat : meta.latitude <;> simp [gate_meta, h, hlat]

theorem gate_meta_filtered (geo : Int → Int → Except Unit Bool) (s : LoopState)
    (meta : MetaData) (k : Int → Int → Int → LoopState × Bool)
    (h1 : meta.latitude ≠ none) (h2 : meta.longitude ≠ none)
    (hg : is_point_in_north_sea meta.latitude meta.longitude geo = false) :
    gate_meta geo s meta k =
      ({ s with filtered_count := s.filtered_count + 1 }, false) := by
  cases hlat : meta.latitude with
  | none => exact absurd hlat h1
  | some la =>
      cases hlon : meta.longitude with
      | none => exact absurd hlon h2
      | some lo =>
          rw [hlat, hlon] at hg
          simp [gate_meta, hlat, hlon, hg]

theorem gate_meta_pass (geo : Int → Int → Except Unit Bool) (s : LoopState)
    (meta : MetaData) (k : Int → Int → Int → LoopState × Bool) (la lo ts : Int)
    (hlat : meta.latitude = some la) (hlon : meta.longitude = some lo)
    (hgeo : is_point_in_north_sea (some la) (some lo) geo = true)
    (hts : parse_timestamp meta.time_utc = some ts) :
    gate_meta geo s meta k = k ts la lo := by
  simp [gate_meta, hlat, hlon, hgeo, hts]

/-- C8 counterexample: the claim says a message with an absent
coordinate increments the "filtered" counter exactly as an out-of-region
position does.  But line 552 skips such a message with a bare
`continue`, before the filter and its counter are ever reached: at a
concrete message with `latitude = None`, the loop state is completely
unchanged — the filtered counter stays 0, where the claim requires 1. -/
theorem absent_coords_not_counted :
    handle_message false geoYes emptyDb 0 initState
        (Message.positionReport ⟨some 7, none, some 3, tsOk⟩
          ⟨none, none, none, none, none⟩) =
      (initState, false)
  ∧ initState.filtered_count = 0 := by
  constructor
  · decide
  · decide

/-- C8 amended: a message whose latitude or longitude is absent is
discarded without further processing but WITHOUT incrementing the
"filtered" counter (the state is unchanged); only a message with both
coordinates present whose position fails the polygon test increments
the filtered counter (by exactly 1, with nothing else changed) and is
discarded. -/
theorem geo_gate_behavior (saveNoImo : Bool) (geo : Int → Int → Except Unit Bool)
    (db : Database) (dbNow : Int) (s : LoopState) (msg : Message)
    (meta : MetaData) (hm : metaOf msg = some meta) :
    ((meta.latitude = none ∨ meta.longitude = none) →
        handle_message saveNoImo geo db dbNow s msg = (s, false))
  ∧ (meta.latitude ≠ none → meta.longitude ≠ none →
      is_point_in_north_sea meta.latitude meta.longitude geo = false →
        handle_message saveNoImo geo db dbNow s msg =
          ({ s with filtered_count := s.filtered_count + 1 }, false)) := by
  constructor
  · intro h
    cases msg with
    | missingType => simp [metaOf] at hm
    | shipStaticData meta0 p =>
        simp only [metaOf, Option.some.injEq] at hm
        subst hm
        exact gate_meta_absent geo s meta0 _ h
    | positionReport meta0 p =>
        simp only [metaOf, Option.some.injEq] at hm
        subst hm
        exact gate_meta_absent geo s meta0 _ h
    | otherType meta0 =>
        simp only [metaOf, Option.some.injEq] at hm
        subst hm
        exact gate_meta_absent geo s meta0 _ h
  · intro h1 h2 hg
    cases msg with
    | missingType => simp [metaOf] at hm
    | shipStaticData meta0 p =>
        simp only [metaOf, Option.some.injEq] at hm
        subst hm
        exact gate_meta_filtered geo s meta0 _ h1 h2 hg
    | positionReport meta0 p =>
        simp only [metaOf, Option.some.injEq] at hm
        subst hm
        exact gate_meta_filtered geo s meta0 _ h1 h2 hg
    | otherType meta0 =>
        simp only [metaOf, Option.some.injEq] at hm
        subst hm
        exact gate_meta_filtered geo s meta0 _ h1 h2 hg

/-- Witness for C8, exercising the out-of-region part at a concrete
in-bounds message against a geometry test that answers `false`. -/
theorem geo_gate_behavior_witness :
    ((metaSample.latitude = none ∨ metaSample.longitude = none) →
        handle_message false (fun _ _ => Except.ok false) emptyDb 0 initState
          (Message.positionReport metaSample posPayloadSample) =
          (initState, false))
  ∧ (metaSample.latitude ≠ none → metaSample.longitude ≠ none →
      is_point_in_north_sea metaSample.latitude metaSample.longitude
          (fun _ _ => Except.ok false) = false →
        handle_message false (fun _ _ => Except.ok false) emptyDb 0 initState
          (Message.positionReport metaSample posPayloadSample) =
          ({ initState with filtered_count := initState.filtered_count + 1 },
           false)) :=
  geo_gate_behavior false (fun _ _ => Except.ok false) emptyDb 0 initState
    (Message.positionReport metaSample posPayloadSample) metaSample rfl

/-- A sample pending position row. -/
def posRowSample : PosRow :=
  ⟨9123456, 1704164645123456, 54, 3, none, some 12, some 200, some 0, some 1,
   some 90⟩

/-- A reachable loop state with 99 pending records (99 position
observations accumulated within one flush interval, each append leaving
the combined count below `BATCH_SIZE`). -/
def pending99 : LoopState :=
  { initState with position_data_batch := List.replicate 99 posRowSample }

/-- A `ShipStaticData` message with a valid IMO, which appends TWO
records: a registry upsert and a static observation. -/
def staticMsgSample : Message :=
  Message.shipStaticData metaSample
    ⟨some 9123456, some "EVER GIVEN", some 70,
     some ⟨some 100, some 50, some 10, some 10⟩, some 12, some "ROTTERDAM"⟩

/-- C3 counterexample: the claim says that with batch size N = 100
appending the 100th record triggers a flush before the 101st is
appended.  But the flush condition is only evaluated after the whole
message is processed, and a static message with a valid IMO appends two
records back-to-back: from a state with 99 pending records, processing
one such message reaches 101 pending records with no flush in between
(`handle_message` contains no flush — the flush check of line 696 runs
strictly after it); the subsequent check then flushes all 101 at once.
So the 101st record is appended before any flush is triggered. -/
theorem batch_threshold_crossed_by_two :
    combined_pending pending99 = 99
  ∧ BATCH_SIZE = 100
  ∧ combined_pending
      (handle_message false geoYes emptyDb 0 pending99 staticMsgSample).1 = 101
  ∧ combined_pending
      (loop_step false geoYes emptyDb 0 1 pending99 staticMsgSample none).2 = 0 := by
  refine ⟨by decide, rfl, by decide, by decide⟩

/-- C3 amended: after processing every message that reaches the flush
check (messages discarded by the gates skip it), a flush is triggered if
and only if the combined pending count across the four batch lists has
reached `BATCH_SIZE = 100` or at least 10 seconds have elapsed since the
last commit; a successful flush empties all four pending lists and
restarts the commit clock.  (Since a static message appends two records,
the combined count at the moment of the flush can be 101 — the flush
follows the message that crosses the threshold, not the individual
append, per the counterexample.) -/
theorem flush_condition_iff (saveNoImo : Bool)
    (geo : Int → Int → Except Unit Bool) (db : Database) (dbNow now : Int)
    (s : LoopState) (msg : Message) (failAt : Option WriteStep)
    (hr : (handle_message saveNoImo geo db dbNow s msg).2 = true) :
    ((combined_pending (handle_message saveNoImo geo db dbNow s msg).1 ≥ BATCH_SIZE ∨
        now - (handle_message saveNoImo geo db dbNow s msg).1.last_commit_time ≥ 10) →
      loop_step saveNoImo geo db dbNow now s msg failAt =
        flush_batches db (handle_message saveNoImo geo db dbNow s msg).1 now failAt)
  ∧ (¬(combined_pending (handle_message saveNoImo geo db dbNow s msg).1 ≥ BATCH_SIZE ∨
        now - (handle_message saveNoImo geo db dbNow s msg).1.last_commit_time ≥ 10) →
      loop_step saveNoImo geo db dbNow now s msg failAt =
        (db, (handle_message saveNoImo geo db dbNow s msg).1))
  ∧ ((flush_batches db (handle_message saveNoImo geo db dbNow s msg).1 now
        none).2.ships_batch = []
      ∧ (flush_batches db (handle_message saveNoImo geo db dbNow s msg).1 now
          none).2.static_data_batch = []
      ∧ (flush_batches db (handle_message saveNoImo geo db dbNow s msg).1 now
          none).2.position_data_batch = []
      ∧ (flush_batches db (handle_message saveNoImo geo db dbNow s msg).1 now
          none).2.unknown_data_batch = []
      ∧ (flush_batches db (handle_message saveNoImo geo db dbNow s msg).1 now
          none).2.last_commit_time = now) := by
  refine ⟨?_, ?_, ?_⟩
  · intro hc
    simp only [loop_step]
    rw [if_pos ⟨hr, hc⟩]
  · intro hc
    simp only [loop_step]
    rw [if_neg (fun hand => hc hand.2)]
  · generalize (handle_message saveNoImo geo db dbNow s msg).1 = t
    simp [flush_batches]

/-- Witness for C3 at a concrete message: the gates pass, the combined
count stays below the threshold and the clock below the interval, so no
flush happens. -/
theorem flush_condition_iff_witness :
    ((combined_pending
        (handle_message false geoYes emptyDb 0 initState
          (Message.positionReport metaSample posPayloadSample)).1 ≥ BATCH_SIZE ∨
      (0 : Int) - (handle_message false geoYes emptyDb 0 initState
          (Message.positionReport metaSample posPayloadSample)).1.last_commit_time ≥ 10) →
      loop_step false geoYes emptyDb 0 0 initState
          (Message.positionReport metaSample posPayloadSample) none =
        flush_batches emptyDb
          (handle_message false geoYes emptyDb 0 initState
            (Message.positionReport metaSample posPayloadSample)).1 0 none)
  ∧ (¬(combined_pending
        (handle_message false geoYes emptyDb 0 initState
          (Message.positionReport metaSample posPayloadSample)).1 ≥ BATCH_SIZE ∨
      (0 : Int) - (handle_message false geoYes emptyDb 0 initState
          (Message.positionReport metaSample posPayloadSample)).1.last_commit_time ≥ 10) →
      loop_step false geoYes emptyDb 0 0 initState
          (Message.positionReport metaSample posPayloadSample) none =
        (emptyDb, (handle_message false geoYes emptyDb 0 initState
          (Message.positionReport metaSample posPayloadSample)).1))
  ∧ ((flush_batches emptyDb
        (handle_message false geoYes emptyDb 0 initState
          (Message.positionReport metaSample posPayloadSample)).1 0
        none).2.ships_batch = []
      ∧ (flush_batches emptyDb
          (handle_message false geoYes emptyDb 0 initState
            (Message.positionReport metaSample posPayloadSample)).1 0
          none).2.static_data_batch = []
      ∧ (flush_batches emptyDb
          (handle_message false geoYes emptyDb 0 initState
            (Message.positionReport metaSample posPayloadSample)).1 0
          none).2.position_data_batch = []
      ∧ (flush_batches emptyDb
          (handle_message false geoYes emptyDb 0 initState
            (Message.positionReport metaSample posPayloadSample)).1 0
          none).2.unknown_data_batch = []
      ∧ (flush_batches emptyDb
          (handle_message false geoYes emptyDb 0 initState
            (Message.positionReport metaSample posPayloadSample)).1 0
          none).2.last_commit_time = 0) :=
  flush_condition_iff false geoYes emptyDb 0 0 initState
    (Message.positionReport metaSample posPayloadSample) none (by decide)

/-- C2: for every `PositionReport` message that passes the geographic
filter and the timestamp parse, exactly one of the following happens —
the three cases are mutually exclusive by their conditions and the
disjunction is exhaustive, so the message is never silently dropped:
(1) the IMO resolves and one `PositionObservation` carrying the resolved
IMO is appended (unknown batch and the no-IMO counter unchanged);
(2) the IMO does not resolve and the retention switch is on: one
`UnidentifiedObservation` is appended (position batch and counter
unchanged); (3) the IMO does not resolve and the switch is off: the
message is discarded and the no-IMO filtered counter is incremented by
exactly 1 (both batches unchanged). -/
theorem position_report_trichotomy (saveNoImo : Bool)
    (geo : Int → Int → Except Unit Bool) (db : Database) (dbNow : Int)
    (s : LoopState) (mm : Option Int) (la lo : Int) (tstr : String)
    (p : PositionPayload) (ts : Int)
    (hgeo : is_point_in_north_sea (some la) (some lo) geo = true)
    (hts : parse_timestamp tstr = some ts) :
    (resolved_imo db.ships s.mmsi_to_imo mm ≠ none
      ∧ (handle_message saveNoImo geo db dbNow s
          (Message.positionReport ⟨mm, some la, some lo, tstr⟩ p)).1.position_data_batch =
        s.position_data_batch ++
          [⟨(resolved_imo db.ships s.mmsi_to_imo mm).getD 0, ts, la, lo,
            get_recent_destination db.ship_static_data_temp dbNow
              ((resolved_imo db.ships s.mmsi_to_imo mm).getD 0),
            p.sog, p.cog, p.navStatus, p.rateOfTurn, p.trueHeading⟩]
      ∧ (handle_message saveNoImo geo db dbNow s
          (Message.positionReport ⟨mm, some la, some lo, tstr⟩ p)).1.unknown_data_batch =
        s.unknown_data_batch
      ∧ (handle_message saveNoImo geo db dbNow s
          (Message.positionReport ⟨mm, some la, some lo, tstr⟩ p)).1.no_imo_filtered_count =
        s.no_imo_filtered_count)
  ∨ (resolved_imo db.ships s.mmsi_to_imo mm = none ∧ saveNoImo = true
      ∧ (handle_message saveNoImo geo db dbNow s
          (Message.positionReport ⟨mm, some la, some lo, tstr⟩ p)).1.unknown_data_batch =
        s.unknown_data_batch ++
          [⟨-1, mm, none, none, none, none, none, none, ts, la, lo,
            p.sog, p.cog, p.navStatus, p.rateOfTurn, p.trueHeading⟩]
      ∧ (handle_message saveNoImo geo db dbNow s
          (Message.positionReport ⟨mm, some la, some lo, tstr⟩ p)).1.position_data_batch =
        s.position_data_batch
      ∧ (handle_message saveNoImo geo db dbNow s
          (Message.positionReport ⟨mm, some la, some lo, tstr⟩ p)).1.no_imo_filtered_count =
        s.no_imo_filtered_count)
  ∨ (resolved_imo db.ships s.mmsi_to_imo mm = none ∧ saveNoImo = false
      ∧ (handle_message saveNoImo geo db dbNow s
          (Message.positionReport ⟨mm, some la, some lo, tstr⟩ p)).1.no_imo_filtered_count =
        s.no_imo_filtered_count + 1
      ∧ (handle_message saveNoImo geo db dbNow s
          (Message.positionReport ⟨mm, some la, some lo, tstr⟩ p)).1.position_data_batch =
        s.position_data_batch
      ∧ (handle_message saveNoImo geo db dbNow s
          (Message.positionReport ⟨mm, some la, some lo, tstr⟩ p)).1.unknown_data_batch =
        s.unknown_data_batch) := by
  have hred : handle_message saveNoImo geo db dbNow s
      (Message.positionReport ⟨mm, some la, some lo, tstr⟩ p) =
      (handle_position saveNoImo db dbNow ⟨mm, some la, some lo, tstr⟩ p ts la lo s,
       true) := by
    simp only [handle_message]
    exact gate_meta_pass geo s ⟨mm, some la, some lo, tstr⟩ _ la lo ts rfl rfl hgeo hts
  rw [hred]
  unfold handle_position resolved_imo
  cases mm with
  | none =>
      cases saveNoImo with
      | true =>
          refine Or.inr (Or.inl ?_)
          simp [resolve_step]
      | false =>
          refine Or.inr (Or.inr ?_)
          simp [resolve_step]
  | some m =>
      cases hl : lookupAssoc s.mmsi_to_imo m with
      | some i =>
          refine Or.inl ?_
          by_cases hm0 : m = 0
          · subst hm0
            simp [resolve_step, hl]
          · simp [resolve_step, hl, hm0]
      | none =>
          cases hf : find_imo_by_mmsi db.ships (some m) with
          | some i =>
              refine Or.inl ?_
              by_cases hm0 : m = 0
              · subst hm0
                simp [find_imo_by_mmsi] at hf
              · simp [resolve_step, hl, hf, hm0]
          | none =>
              cases saveNoImo with
              | true =>
                  refine Or.inr (Or.inl ?_)
                  by_cases hm0 : m = 0
                  · subst hm0
                    simp [resolve_step, hl, hf]
                  · simp [resolve_step, hl, hf, hm0]
              | false =>
                  refine Or.inr (Or.inr ?_)
                  by_cases hm0 : m = 0
                  · subst hm0
                    simp [resolve_step, hl, hf]
                  · simp [resolve_step, hl, hf, hm0]

/-- Witness for C2 at a concrete in-region position report against an
empty registry with the retention switch off: the third case (discard
and count) holds. -/
theorem position_report_trichotomy_witness :
    (resolved_imo emptyDb.ships initState.mmsi_to_imo (some 230000001) ≠ none
      ∧ (handle_message false geoYes emptyDb 0 initState
          (Message.positionReport ⟨some 230000001, some 54, some 3, tsOk⟩
            posPayloadSample)).1.position_data_batch =
        initState.position_data_batch ++
          [⟨(resolved_imo emptyDb.ships initState.mmsi_to_imo (some 230000001)).getD 0,
            (parse_timestamp tsOk).getD 0, 54, 3,
            get_recent_destination emptyDb.ship_static_data_temp 0
              ((resolved_imo emptyDb.ships initState.mmsi_to_imo (some 230000001)).getD 0),
            posPayloadSample.sog, posPayloadSample.cog, posPayloadSample.navStatus,
            posPayloadSample.rateOfTurn, posPayloadSample.trueHeading⟩]
      ∧ (handle_message false geoYes emptyDb 0 initState
          (Message.positionReport ⟨some 230000001, some 54, some 3, tsOk⟩
            posPayloadSample)).1.unknown_data_batch =
        initState.unknown_data_batch
      ∧ (handle_message false geoYes emptyDb 0 initState
          (Message.positionReport ⟨some 230000001, some 54, some 3, tsOk⟩
            posPayloadSample)).1.no_imo_filtered_count =
        initState.no_imo_filtered_count)
  ∨ (resolved_imo emptyDb.ships initState.mmsi_to_imo (some 230000001) = none
      ∧ false = true
      ∧ (handle_message false geoYes emptyDb 0 initState
          (Message.positionReport ⟨some 230000001, some 54, some 3, tsOk⟩
            posPayloadSample)).1.unknown_data_batch =
        initState.unknown_data_batch ++
          [⟨-1, some 230000001, none, none, none, none, none, none,
            (parse_timestamp tsOk).getD 0, 54, 3, posPayloadSample.sog,
            posPayloadSample.cog, posPayloadSample.navStatus,
            posPayloadSample.rateOfTurn, posPayloadSample.trueHeading⟩]
      ∧ (handle_message false geoYes emptyDb 0 initState
          (Message.positionReport ⟨some 230000001, some 54, some 3, tsOk⟩
            posPayloadSample)).1.position_data_batch =
        initState.position_data_batch
      ∧ (handle_message false geoYes emptyDb 0 initState
          (Message.positionReport ⟨some 230000001, some 54, some 3, tsOk⟩
            posPayloadSample)).1.no_imo_filtered_count =
        initState.no_imo_filtered_count)
  ∨ (resolved_imo emptyDb.ships initState.mmsi_to_imo (some 230000001) = none
      ∧ false = false
      ∧ (handle_message false geoYes emptyDb 0 initState
          (Message.positionReport ⟨some 230000001, some 54, some 3, tsOk⟩
            posPayloadSample)).1.no_imo_filtered_count =
        initState.no_imo_filtered_count + 1
      ∧ (handle_message false geoYes emptyDb 0 initState
          (Message.positionReport ⟨some 230000001, some 54, some 3, tsOk⟩
            posPayloadSample)).1.position_data_batch =
        initState.position_data_batch
      ∧ (handle_message false geoYes emptyDb 0 initState
          (Message.positionReport ⟨some 230000001, some 54, some 3, tsOk⟩
            posPayloadSample)).1.unknown_data_batch =
        initState.unknown_data_batch) :=
  position_report_trichotomy false geoYes emptyDb 0 initState (some 230000001)
    54 3 tsOk posPayloadSample ((parse_timestamp tsOk).getD 0) rfl (by decide)

end AisCollector
